import Mathlib

/-!
Verification of the google-workspace-mcp-with-script repository.

Part 1: the Google-Docs-to-Markdown renderer.  The repository ships only the
unit tests of `convertDocsJsonToMarkdown` (tests/markdown.test.ts); the
implementation file `src/helpers/markdown.ts` is not part of the sources
available here, so the renderer below is modelled from the specification
(spec.md sections 3 and 4.1), faithful to its words.

Part 2: the Gmail API helpers (`src/gmailApiHelpers.ts`), embedded directly
from the source: the batch-fetch guards of `getMessagesBatch` /
`getThreadsBatch` and the base64url transforms of `decodeBase64Url` /
`sendMessage`.
-/

/-- Modelled from the spec: the `link` object of a text style, carrying the
target `url` (spec section 3, TextRun). -/
structure Link where
  url : String
deriving Repr, DecidableEq

/-- Modelled from the spec: a text style with independent boolean flags
`bold`, `italic`, `strikethrough` (absent treated as false, spec section 4.1
input contract) and an optional `link`. -/
structure TextStyle where
  bold : Bool := false
  italic : Bool := false
  strikethrough : Bool := false
  link : Option Link := none
deriving Repr, DecidableEq

/-- Modelled from the spec: a text run with raw `content` and an optional
`textStyle` (spec section 3, TextRun). -/
structure TextRun where
  content : String := ""
  textStyle : Option TextStyle := none
deriving Repr, DecidableEq

/-- Modelled from the spec: a paragraph style carrying the optional
`namedStyleType` enum string (spec section 3, Paragraph). -/
structure ParagraphStyle where
  namedStyleType : Option String := none
deriving Repr, DecidableEq

/-- Modelled from the spec: the bullet marker of a list-item paragraph.  The
spec states that only its presence, not its value, signals a list item, so the
renderer never inspects these fields. -/
structure Bullet where
  listId : Option String := none
  nestingLevel : Option Nat := none
deriving Repr, DecidableEq

/-- Modelled from the spec: a paragraph with optional `paragraphStyle`,
optional `bullet` marker and an ordered sequence of runs called `elements`
(spec section 3, Paragraph). -/
structure Paragraph where
  paragraphStyle : Option ParagraphStyle := none
  bullet : Option Bullet := none
  elements : List TextRun := []
deriving Repr, DecidableEq

/-- Modelled from the spec: a block-level node, a tagged union over
paragraph, table and section break (spec section 3, BlockNode).  A table is
an ordered list of rows, each row an ordered list of cells, each cell
recursively a list of block nodes (tableRows / tableCells / content).  The
`other` constructor stands for any unrecognized block shape, which the spec
requires to be skipped silently (spec section 4.1 step 7). -/
inductive BlockNode where
  | paragraph (p : Paragraph) : BlockNode
  | table (tableRows : List (List (List BlockNode))) : BlockNode
  | sectionBreak : BlockNode
  | other : BlockNode

/-- Modelled from the spec: a document body with an optional ordered block
sequence `content` (spec section 3, Document). -/
structure Body where
  content : Option (List BlockNode) := none

/-- Modelled from the spec: the document root with an optional `body`
(spec section 3, Document). -/
structure Document where
  title : Option String := none
  body : Option Body := none

/-- A string of `n` hash characters, used for heading markers. -/
def hashMarks : Nat → String
  | 0 => ""
  | n + 1 => "#" ++ hashMarks n

/-- Modelled from the spec: the static lookup table from `namedStyleType`
to heading level (spec section 4.1 steps 3b and 3b', section 9): `TITLE` is
treated identically to `HEADING_1`; `HEADING_<N>` maps to N for N in 1..6;
every other style yields no heading marker. -/
def headingLevel : String → Option Nat
  | "TITLE" => some 1
  | "HEADING_1" => some 1
  | "HEADING_2" => some 2
  | "HEADING_3" => some 3
  | "HEADING_4" => some 4
  | "HEADING_5" => some 5
  | "HEADING_6" => some 6
  | _ => none

/-- Modelled from the spec: link wrapping, applied first and innermost
(spec section 4.1 step 4b): when `link.url` is present the content becomes
`[content](url)`. -/
def applyLinkWrap (st : TextStyle) (s : String) : String :=
  match st.link with
  | some l => "[" ++ s ++ "](" ++ l.url ++ ")"
  | none => s

/-- Modelled from the spec: emphasis wrapping by exactly one of four
outcomes (spec section 4.1 step 4c): both flags give a single combined
`***` marker, bold alone `**`, italic alone `*`, neither leaves the text
unwrapped. -/
def applyEmphasisWrap (st : TextStyle) (s : String) : String :=
  if st.bold && st.italic then "***" ++ s ++ "***"
  else if st.bold then "**" ++ s ++ "**"
  else if st.italic then "*" ++ s ++ "*"
  else s

/-- Modelled from the spec: strikethrough wrapping, applied last, outside
any emphasis marker (spec section 4.1 step 4d). -/
def applyStrikeWrap (st : TextStyle) (s : String) : String :=
  if st.strikethrough then "~~" ++ s ++ "~~" else s

/-- Modelled from the spec: rendering of one text run (spec section 4.1
step 4): start from the raw content, link-wrap, then emphasis-wrap, then
strikethrough-wrap, in that fixed order; an absent style leaves the content
untouched. -/
def renderTextRun (r : TextRun) : String :=
  match r.textStyle with
  | none => r.content
  | some st => applyStrikeWrap st (applyEmphasisWrap st (applyLinkWrap st r.content))

/-- Modelled from the spec: the runs of a paragraph concatenated in order
(spec section 4.1 step 3a). -/
def renderRuns : List TextRun → String
  | [] => ""
  | r :: rs => renderTextRun r ++ renderRuns rs

/-- The heading level of a paragraph, read through its optional style. -/
def paragraphHeadingLevel (p : Paragraph) : Option Nat :=
  match p.paragraphStyle with
  | some ps =>
    match ps.namedStyleType with
    | some t => headingLevel t
    | none => none
  | none => none

/-- Modelled from the spec: rendering of one paragraph to its single output
line (spec section 4.1 step 3): concatenated run text, then the heading
prefix when the named style maps to a level, then the `- ` bullet marker
when `bullet` is present, regardless of the marker's value. -/
def renderParagraph (p : Paragraph) : String :=
  let text := renderRuns p.elements
  let text :=
    match paragraphHeadingLevel p with
    | some n => hashMarks n ++ " " ++ text
    | none => text
  match p.bullet with
  | some _ => "- " ++ text
  | none => text

/-- Join a list of strings with the given separator between consecutive
elements. -/
def joinSep (sep : String) : List String → String
  | [] => ""
  | [x] => x
  | x :: y :: rest => x ++ sep ++ joinSep sep (y :: rest)

/-- Modelled from the spec: one table line, the cell texts joined with
`" | "` and bracketed with `|` on both ends (spec section 4.1 step 5). -/
def tableLine (cells : List String) : String :=
  "| " ++ joinSep " | " cells ++ " |"

mutual

/-- Modelled from the spec: rendering of one block node to its output lines
(spec section 4.1 step 2): a paragraph yields its one line, a table its
header, separator and data-row lines, a section break the line `---`, and
an unrecognized block contributes nothing (step 7). -/
def renderBlock : BlockNode → List String
  | .paragraph p => [renderParagraph p]
  | .table rows => renderTableLines rows
  | .sectionBreak => ["---"]
  | .other => []

/-- The block sequence rendered in input order, lines concatenated. -/
def renderBlocksLines : List BlockNode → List String
  | [] => []
  | b :: bs => renderBlock b ++ renderBlocksLines bs

/-- Modelled from the spec: table rendering (spec section 4.1 step 5): the
first row becomes the header line, then one separator line with one `---`
per header-row cell, then one line per remaining row. -/
def renderTableLines : List (List (List BlockNode)) → List String
  | [] => []
  | header :: rest =>
    tableLine (renderCells header) ::
      tableLine (List.replicate header.length "---") :: renderDataRows rest

/-- The data rows of a table, one output line per row. -/
def renderDataRows : List (List (List BlockNode)) → List String
  | [] => []
  | r :: rs => tableLine (renderCells r) :: renderDataRows rs

/-- The rendered single-line text of each cell of one row: a cell's block
content is rendered recursively and flattened to one line by joining its
lines with a space (spec section 4.1 step 5; the spec leaves the
multi-line flattening rule open and suggests the space join chosen here). -/
def renderCells : List (List BlockNode) → List String
  | [] => []
  | c :: cs => joinSep " " (renderBlocksLines c) :: renderCells cs

end

/-- The single-line flattening of one table cell's block content. -/
def renderCellText (content : List BlockNode) : String :=
  joinSep " " (renderBlocksLines content)

/-- Modelled from the spec: the top-level renderer `convertDocsJsonToMarkdown`
(spec section 4.1): when `body` is absent, or `body.content` is absent or
empty, the sentinel string is returned immediately; otherwise the block
lines are joined with a single newline. -/
def convertDocsJsonToMarkdown (doc : Document) : String :=
  match doc.body with
  | none => "Document appears to be empty."
  | some b =>
    match b.content with
    | none => "Document appears to be empty."
    | some [] => "Document appears to be empty."
    | some blocks => joinSep "\n" (renderBlocksLines blocks)

/-- A top-level paragraph holding one unstyled run, used to state the
order-preservation property. -/
def mkPlainParagraph (s : String) : BlockNode :=
  .paragraph { elements := [{ content := s }] }

/-! Part 2: the Gmail API helpers, embedded from src/gmailApiHelpers.ts. -/

/-- The per-batch limit, src/gmailApiHelpers.ts line 10. -/
def MAX_BATCH_SIZE : Nat := 25

/-- The GmailAttachment record, src/gmailApiHelpers.ts lines 27-32. -/
structure GmailAttachment where
  attachmentId : String
  filename : String
  mimeType : String
  size : Nat
deriving Repr, DecidableEq

/-- The GmailMessage record, src/gmailApiHelpers.ts lines 14-25. -/
structure GmailMessage where
  id : String
  threadId : String
  labelIds : Option (List String) := none
  snippet : Option String := none
  subject : Option String := none
  «from» : Option String := none
  «to» : Option String := none
  date : Option String := none
  body : Option String := none
  attachments : Option (List GmailAttachment) := none
deriving Repr, DecidableEq

/-- The GmailThread record, src/gmailApiHelpers.ts lines 34-38. -/
structure GmailThread where
  id : String
  snippet : Option String := none
  messages : List GmailMessage := []
deriving Repr, DecidableEq

/-- The two kinds of exception thrown by the helpers: `UserError` from
fastmcp, and the generic `Error` (src/gmailApiHelpers.ts throughout). -/
inductive HelperError where
  | userError (message : String) : HelperError
  | error (message : String) : HelperError
deriving Repr, DecidableEq

/-- The observable outcome of one batch helper call: the value returned or
the exception thrown, together with the ids for which a per-item API call
was issued. -/
structure BatchCall (α : Type) where
  result : Except HelperError (List α)
  apiCalls : List String
deriving Repr

/-- getMessagesBatch, src/gmailApiHelpers.ts lines 242-267.  The per-item
`getMessage` call (an awaited network request) is abstracted as the oracle
`fetchMessage`, returning `none` when the call fails; the source catches
each failure, maps it to null, and keeps the non-null results in order,
which is `List.filterMap`.  The empty-list and over-limit guards precede
the per-item calls, so those paths issue none. -/
def getMessagesBatch (fetchMessage : String → Option GmailMessage)
    (messageIds : List String) : BatchCall GmailMessage :=
  if messageIds.length = 0 then ⟨.ok [], []⟩
  else if messageIds.length > MAX_BATCH_SIZE then
    ⟨.error (.userError ("Maximum " ++ toString MAX_BATCH_SIZE ++
      " messages per batch. Received: " ++ toString messageIds.length)), []⟩
  else ⟨.ok (messageIds.filterMap fetchMessage), messageIds⟩

/-- getThreadsBatch, src/gmailApiHelpers.ts lines 439-456, with the
per-item `getThread` call abstracted as the oracle `fetchThread`; the
source filters the nulls out of the settled results, which is again
`List.filterMap`. -/
def getThreadsBatch (fetchThread : String → Option GmailThread)
    (threadIds : List String) : BatchCall GmailThread :=
  if threadIds.length = 0 then ⟨.ok [], []⟩
  else if threadIds.length > MAX_BATCH_SIZE then
    ⟨.error (.userError ("Maximum " ++ toString MAX_BATCH_SIZE ++
      " threads per batch. Received: " ++ toString threadIds.length)), []⟩
  else ⟨.ok (threadIds.filterMap fetchThread), threadIds⟩

/-- The standard base64 alphabet, indices 0..63. -/
def b64Alphabet : List Char :=
  ['A', 'B', 'C', 'D', 'E', 'F', 'G', 'H', 'I', 'J', 'K', 'L', 'M',
   'N', 'O', 'P', 'Q', 'R', 'S', 'T', 'U', 'V', 'W', 'X', 'Y', 'Z',
   'a', 'b', 'c', 'd', 'e', 'f', 'g', 'h', 'i', 'j', 'k', 'l', 'm',
   'n', 'o', 'p', 'q', 'r', 's', 't', 'u', 'v', 'w', 'x', 'y', 'z',
   '0', '1', '2', '3', '4', '5', '6', '7', '8', '9', '+', '/']

/-- The base64 character of a sextet. -/
def b64Char (n : Nat) : Char := b64Alphabet.getD n '='

/-- The sextet of a base64 character. -/
def b64Index (c : Char) : Nat := b64Alphabet.indexOf c

/-- Standard base64 encoding with `=` padding of a byte sequence, the
behaviour of Node's `Buffer.toString('base64')` used at
src/gmailApiHelpers.ts line 331: three bytes become four sextets; a final
single byte becomes two sextets and `==`; a final pair becomes three
sextets and `=`. -/
def encodeBase64 : List Nat → List Char
  | [] => []
  | [a] => [b64Char (a / 4), b64Char (a % 4 * 16), '=', '=']
  | [a, b] => [b64Char (a / 4), b64Char (a % 4 * 16 + b / 16), b64Char (b % 16 * 4), '=']
  | a :: b :: c :: rest =>
    b64Char (a / 4) :: b64Char (a % 4 * 16 + b / 16) ::
      b64Char (b % 16 * 4 + c / 64) :: b64Char (c % 64) :: encodeBase64 rest

/-- Base64 decoding of an unpadded character sequence, the behaviour of
Node's `Buffer.from(data, 'base64')` used at src/gmailApiHelpers.ts
line 93 on padding-stripped input: each group of four sextets yields three
bytes; a trailing group of two sextets yields one byte and of three
sextets two bytes. -/
def decodeBase64 : List Char → List Nat
  | w :: x :: y :: z :: rest =>
    (b64Index w * 4 + b64Index x / 16) ::
      (b64Index x % 16 * 16 + b64Index y / 4) ::
      (b64Index y % 4 * 64 + b64Index z) :: decodeBase64 rest
  | [w, x] => [b64Index w * 4 + b64Index x / 16]
  | [w, x, y] =>
    [b64Index w * 4 + b64Index x / 16, b64Index x % 16 * 16 + b64Index y / 4]
  | _ => []

/-- The URL-safe substitution of sendMessage, src/gmailApiHelpers.ts
lines 332-333: `+` becomes `-` and `/` becomes `_`. -/
def toUrlSafeChar (c : Char) : Char :=
  if c = '+' then '-' else if c = '/' then '_' else c

/-- The inverse substitution of decodeBase64Url, src/gmailApiHelpers.ts
line 92: `-` becomes `+` and `_` becomes `/`. -/
def fromUrlSafeChar (c : Char) : Char :=
  if c = '-' then '+' else if c = '_' then '/' else c

/-- Removal of the trailing run of `=` characters, the regex replace of
src/gmailApiHelpers.ts line 334. -/
def stripTrailingPad : List Char → List Char
  | [] => []
  | c :: rest =>
    let r := stripTrailingPad rest
    if r.isEmpty && c == '=' then [] else c :: r

/-- The raw-message encoding of sendMessage, src/gmailApiHelpers.ts
lines 330-334, on the UTF-8 bytes of the assembled message: standard
base64, then the URL-safe substitution, then the trailing padding
stripped. -/
def sendMessageRawEncoding (bytes : List Nat) : List Char :=
  stripTrailingPad ((encodeBase64 bytes).map toUrlSafeChar)

/-- decodeBase64Url, src/gmailApiHelpers.ts lines 90-94, at the byte
level: map the URL-safe characters back and base64-decode.  The final
`Buffer.toString('utf-8')` step, which turns the bytes back into a
string, lives in the Node runtime and is abstracted away here. -/
def decodeBase64Url (chars : List Char) : List Nat :=
  decodeBase64 (chars.map fromUrlSafeChar)

/-- A concrete fetch oracle for the batch witnesses: the id `"a"` succeeds,
every other id fails. -/
def wFetchMessage : String → Option GmailMessage :=
  fun i => if i = "a" then some { id := "a", threadId := "t1" } else none

/-- A concrete thread fetch oracle for the batch witnesses: every id
fails. -/
def wFetchThread : String → Option GmailThread :=
  fun _ => none

/-! Helper lemmas. -/

theorem joinSep_singleton (sep : String) (x : String) : joinSep sep [x] = x := rfl

theorem renderCells_eq_map (cells : List (List BlockNode)) :
    renderCells cells = cells.map renderCellText := by
  induction cells with
  | nil => rfl
  | cons c cs ih => simp [renderCells, renderCellText, ih]

theorem renderDataRows_eq_map (rows : List (List (List BlockNode))) :
    renderDataRows rows = rows.map (fun r => tableLine (r.map renderCellText)) := by
  induction rows with
  | nil => rfl
  | cons r rs ih => simp [renderDataRows, renderCells_eq_map, ih]

theorem renderBlocksLines_plain (xs : List String) :
    renderBlocksLines (xs.map mkPlainParagraph) = xs := by
  induction xs with
  | nil => rfl
  | cons x xs ih =>
    simp [mkPlainParagraph, renderBlocksLines, renderBlock, renderParagraph,
      paragraphHeadingLevel, renderRuns, renderTextRun, ih]

/-! Claim theorems. -/

/-- C1: for every input document whose `body` is absent, or whose
`body.content` is absent or empty, `convertDocsJsonToMarkdown` returns
exactly the sentinel string "Document appears to be empty." and nothing
else. -/
theorem empty_document_sentinel (doc : Document)
    (h : doc.body = none ∨
      ∃ b, doc.body = some b ∧ (b.content = none ∨ b.content = some [])) :
    convertDocsJsonToMarkdown doc = "Document appears to be empty." := by
  rcases h with h | ⟨b, hb, h | h⟩
  · simp [convertDocsJsonToMarkdown, h]
  · simp [convertDocsJsonToMarkdown, hb, h]
  · simp [convertDocsJsonToMarkdown, hb, h]

/-- Witness for C1: the renderer maps the document with a title but no body
to the sentinel string. -/
theorem empty_document_sentinel_witness :
    convertDocsJsonToMarkdown { title := some "Test" } = "Document appears to be empty." :=
  empty_document_sentinel { title := some "Test" } (Or.inl rfl)

/-- C2: the renderer is total, always producing a string, and a block node
that is neither a paragraph, a table, nor a section break contributes
nothing to the output: deleting it from the block sequence leaves the
rendered lines unchanged. -/
theorem renderer_total_and_unknown_blocks_skipped :
    (∀ doc : Document, ∃ s : String, convertDocsJsonToMarkdown doc = s) ∧
    renderBlock .other = [] ∧
    ∀ pre post : List BlockNode,
      renderBlocksLines (pre ++ BlockNode.other :: post) = renderBlocksLines (pre ++ post) := by
  refine ⟨fun doc => ⟨_, rfl⟩, rfl, fun pre post => ?_⟩
  induction pre with
  | nil => simp [renderBlocksLines, renderBlock]
  | cons b bs ih => simp only [List.cons_append, renderBlocksLines, List.append_eq, ih]

/-- C3: the emphasis wrap of a text run is one of exactly four outcomes
decided by the two flags: both flags give the single combined `***` marker,
bold alone `**`, italic alone `*`, and neither flag leaves the content
unwrapped; strikethrough is an independent `~~` wrap. -/
theorem emphasis_wrap_outcomes (content : String) :
    renderTextRun { content := content, textStyle := some { bold := true, italic := true } }
      = "***" ++ content ++ "***" ∧
    renderTextRun { content := content, textStyle := some { bold := true } }
      = "**" ++ content ++ "**" ∧
    renderTextRun { content := content, textStyle := some { italic := true } }
      = "*" ++ content ++ "*" ∧
    renderTextRun { content := content, textStyle := some {} } = content ∧
    renderTextRun { content := content, textStyle := none } = content ∧
    renderTextRun { content := content, textStyle := some { strikethrough := true } }
      = "~~" ++ content ++ "~~" :=
  ⟨rfl, rfl, rfl, rfl, rfl, rfl⟩

/-- C7: the style wraps of a text run are applied innermost to outermost in
the fixed order link, then emphasis, then strikethrough. -/
theorem style_wrap_order (content url : String) :
    renderTextRun { content := content,
                    textStyle := some { bold := true, italic := true, strikethrough := true,
                                        link := some { url := url } } }
      = "~~" ++ ("***" ++ ("[" ++ content ++ "](" ++ url ++ ")") ++ "***") ++ "~~" ∧
    renderTextRun { content := content, textStyle := some { link := some { url := url } } }
      = "[" ++ content ++ "](" ++ url ++ ")" ∧
    renderTextRun { content := content,
                    textStyle := some { bold := true, link := some { url := url } } }
      = "**" ++ ("[" ++ content ++ "](" ++ url ++ ")") ++ "**" ∧
    renderTextRun { content := content,
                    textStyle := some { strikethrough := true, link := some { url := url } } }
      = "~~" ++ ("[" ++ content ++ "](" ++ url ++ ")") ++ "~~" ∧
    renderTextRun { content := content,
                    textStyle := some { bold := true, strikethrough := true } }
      = "~~" ++ ("**" ++ content ++ "**") ++ "~~" :=
  ⟨rfl, rfl, rfl, rfl, rfl⟩

/-- C4: a table renders as the header line built from the first row's cell
texts joined with " | " and bracketed with `|`, then a separator line with
one `---` per header-row cell, then one line per remaining row under the
same join rule, each cell's text being its recursively rendered block
content flattened to a single line; instantiated on the test table this
gives the three expected lines in order. -/
theorem table_rendering_layout (header : List (List BlockNode))
    (rows : List (List (List BlockNode))) :
    (renderBlock (.table (header :: rows)) =
      tableLine (header.map renderCellText) ::
        tableLine (List.replicate header.length "---") ::
        rows.map (fun r => tableLine (r.map renderCellText))) ∧
    convertDocsJsonToMarkdown { body := some { content := some [.table
        [ [ [.paragraph { elements := [{ content := "Header 1" }] }],
            [.paragraph { elements := [{ content := "Header 2" }] }] ],
          [ [.paragraph { elements := [{ content := "Cell 1" }] }],
            [.paragraph { elements := [{ content := "Cell 2" }] }] ] ] ] } }
      = "| Header 1 | Header 2 |\n| --- | --- |\n| Cell 1 | Cell 2 |" := by
  constructor
  · simp [renderBlock, renderTableLines, renderCells_eq_map, renderDataRows_eq_map]
  · decide

/-- C5: a paragraph styled HEADING_N for N in 1..6 renders as its
concatenated run text prefixed with exactly N hash characters and one
space, and a TITLE paragraph renders identically to the same paragraph
styled HEADING_1. -/
theorem heading_styles_rendering (n : Nat) (h1 : 1 ≤ n) (h6 : n ≤ 6) (es : List TextRun) :
    (convertDocsJsonToMarkdown { body := some { content := some [
        .paragraph { paragraphStyle := some { namedStyleType := some ("HEADING_" ++ toString n) },
                     elements := es }] } }
      = hashMarks n ++ " " ++ renderRuns es) ∧
    (convertDocsJsonToMarkdown { body := some { content := some [
        .paragraph { paragraphStyle := some { namedStyleType := some "TITLE" },
                     elements := es }] } }
      = convertDocsJsonToMarkdown { body := some { content := some [
        .paragraph { paragraphStyle := some { namedStyleType := some "HEADING_1" },
                     elements := es }] } }) := by
  interval_cases n <;> exact ⟨rfl, rfl⟩

/-- Witness for C5: HEADING_2 on the run "Subtitle" renders as a
two-hash heading line. -/
theorem heading_styles_rendering_witness :
    convertDocsJsonToMarkdown { body := some { content := some [
      .paragraph { paragraphStyle := some { namedStyleType := some "HEADING_2" },
                   elements := [{ content := "Subtitle" }] }] } } = "## Subtitle" :=
  (heading_styles_rendering 2 (by decide) (by decide) [{ content := "Subtitle" }]).1

/-- C6: a paragraph whose bullet marker is present renders with the `- `
line marker in front of what it would otherwise render to, whatever the
marker's internal value; two consecutive bullet paragraphs render as two
lines joined by a single newline with no blank line between them. -/
theorem bullet_list_rendering (p : Paragraph) (bv : Bullet) (hb : p.bullet = some bv) :
    (renderParagraph p = "- " ++ renderParagraph { p with bullet := none }) ∧
    convertDocsJsonToMarkdown { body := some { content := some [
      .paragraph { bullet := some {}, elements := [{ content := "List item 1" }] },
      .paragraph { bullet := some {}, elements := [{ content := "List item 2" }] }] } }
      = "- List item 1\n- List item 2" := by
  constructor
  · simp [renderParagraph, paragraphHeadingLevel, hb]
  · decide

/-- Witness for C6: a bullet paragraph with a populated marker value
renders with the dash marker in front of its unbulleted rendering. -/
theorem bullet_list_rendering_witness :
    renderParagraph { bullet := some { listId := some "kix.x", nestingLevel := some 0 },
                      elements := [{ content := "List item 1" }] }
      = "- " ++ renderParagraph { bullet := (none : Option Bullet),
                                  elements := [{ content := "List item 1" }] } :=
  (bullet_list_rendering
    { bullet := some { listId := some "kix.x", nestingLevel := some 0 },
      elements := [{ content := "List item 1" }] }
    { listId := some "kix.x", nestingLevel := some 0 } rfl).1

/-- C8: rendering distributes over concatenation of the block sequence, so
contributions appear in input order; a document of plain paragraphs renders
to exactly their texts joined with newlines in input order, and the
two-paragraph test document contains both texts in order. -/
theorem output_preserves_block_order (bs1 bs2 : List BlockNode) (c : String) (cs : List String) :
    (renderBlocksLines (bs1 ++ bs2) = renderBlocksLines bs1 ++ renderBlocksLines bs2) ∧
    (convertDocsJsonToMarkdown { body := some { content := some ((c :: cs).map mkPlainParagraph) } }
      = joinSep "\n" (c :: cs)) ∧
    convertDocsJsonToMarkdown { body := some { content := some [
      mkPlainParagraph "First paragraph", mkPlainParagraph "Second paragraph"] } }
      = "First paragraph\nSecond paragraph" := by
  refine ⟨?_, ?_, by decide⟩
  · induction bs1 with
    | nil => rfl
    | cons b bs ih => simp only [List.cons_append, renderBlocksLines, List.append_eq,
        List.append_assoc, ih]
  · show joinSep "\n" (renderBlocksLines ((c :: cs).map mkPlainParagraph)) = joinSep "\n" (c :: cs)
    rw [renderBlocksLines_plain]

theorem getMessagesBatch_ok_eq (fetchM : String → Option GmailMessage)
    (ids : List String) (msgs : List GmailMessage)
    (hm : (getMessagesBatch fetchM ids).result = .ok msgs) :
    msgs = ids.filterMap fetchM := by
  by_cases h0 : ids.length = 0
  · have he : ids = [] := List.length_eq_zero.mp h0
    subst he
    simpa [getMessagesBatch] using hm.symm
  · by_cases h25 : ids.length > MAX_BATCH_SIZE
    · simp [getMessagesBatch, h0, h25] at hm
    · simpa [getMessagesBatch, h0, h25] using hm.symm

theorem getThreadsBatch_ok_eq (fetchT : String → Option GmailThread)
    (ids : List String) (ths : List GmailThread)
    (ht : (getThreadsBatch fetchT ids).result = .ok ths) :
    ths = ids.filterMap fetchT := by
  by_cases h0 : ids.length = 0
  · have he : ids = [] := List.length_eq_zero.mp h0
    subst he
    simpa [getThreadsBatch] using ht.symm
  · by_cases h25 : ids.length > MAX_BATCH_SIZE
    · simp [getThreadsBatch, h0, h25] at ht
    · simpa [getThreadsBatch, h0, h25] using ht.symm

/-- C9: the Gmail batch helpers enforce the per-batch limit of 25: both
return the empty list for an empty id list without issuing any API call;
both throw a UserError for more than 25 ids before issuing any API call;
and every accepted list yields exactly the successfully fetched items in
order, so the result is never longer than the input. -/
theorem gmail_batch_size_limits (fetchM : String → Option GmailMessage)
    (fetchT : String → Option GmailThread) (ids : List String) :
    (getMessagesBatch fetchM [] = ⟨.ok [], []⟩) ∧
    (getThreadsBatch fetchT [] = ⟨.ok [], []⟩) ∧
    (ids.length > MAX_BATCH_SIZE →
      getMessagesBatch fetchM ids =
        ⟨.error (.userError ("Maximum " ++ toString MAX_BATCH_SIZE ++
          " messages per batch. Received: " ++ toString ids.length)), []⟩ ∧
      getThreadsBatch fetchT ids =
        ⟨.error (.userError ("Maximum " ++ toString MAX_BATCH_SIZE ++
          " threads per batch. Received: " ++ toString ids.length)), []⟩) ∧
    (ids.length ≤ MAX_BATCH_SIZE →
      (getMessagesBatch fetchM ids).result = .ok (ids.filterMap fetchM) ∧
      (getThreadsBatch fetchT ids).result = .ok (ids.filterMap fetchT)) ∧
    (∀ msgs, (getMessagesBatch fetchM ids).result = .ok msgs → msgs.length ≤ ids.length) ∧
    (∀ ths, (getThreadsBatch fetchT ids).result = .ok ths → ths.length ≤ ids.length) := by
  refine ⟨rfl, rfl, fun h => ?_, fun h => ?_, fun msgs hm => ?_, fun ths ht => ?_⟩
  · have h' : 25 < ids.length := h
    constructor <;>
      simp [getMessagesBatch, getThreadsBatch, MAX_BATCH_SIZE, h',
        show ¬ ids.length = 0 by omega]
  · have h' : ids.length ≤ 25 := h
    by_cases h0 : ids.length = 0
    · have he : ids = [] := List.length_eq_zero.mp h0
      subst he
      exact ⟨rfl, rfl⟩
    · constructor <;>
        simp [getMessagesBatch, getThreadsBatch, MAX_BATCH_SIZE, h0,
          show ¬ 25 < ids.length by omega]
  · rw [getMessagesBatch_ok_eq fetchM ids msgs hm]
    exact List.length_filterMap_le fetchM ids
  · rw [getThreadsBatch_ok_eq fetchT ids ths ht]
    exact List.length_filterMap_le fetchT ids

/-- Witness for C9: 26 ids are rejected with the UserError and no API
call, and a two-id batch where only "a" succeeds returns exactly that one
message. -/
theorem gmail_batch_size_limits_witness :
    getMessagesBatch wFetchMessage (List.replicate 26 "x") =
      ⟨.error (.userError "Maximum 25 messages per batch. Received: 26"), []⟩ ∧
    (getMessagesBatch wFetchMessage ["a", "b"]).result =
      .ok [{ id := "a", threadId := "t1" }] := by
  constructor
  · exact ((gmail_batch_size_limits wFetchMessage wFetchThread
      (List.replicate 26 "x")).2.2.1 (by decide)).1
  · exact ((gmail_batch_size_limits wFetchMessage wFetchThread
      ["a", "b"]).2.2.2.1 (by decide)).1

theorem b64_char_roundtrip :
    ∀ n, n < 64 → b64Index (fromUrlSafeChar (toUrlSafeChar (b64Char n))) = n := by decide

theorem b64_char_ne_pad :
    ∀ n, n < 64 → (toUrlSafeChar (b64Char n) == '=') = false := by decide

theorem toUrl_pad_eq : toUrlSafeChar '=' = '=' := rfl

theorem strip_pad_one : stripTrailingPad ['='] = [] := rfl

theorem strip_pad_two : stripTrailingPad ['=', '='] = [] := rfl

theorem stripTrailingPad_cons_ne (c : Char) (l : List Char) (hc : (c == '=') = false) :
    stripTrailingPad (c :: l) = c :: stripTrailingPad l := by
  simp [stripTrailingPad, hc]

theorem encodeBase64_one (a : Nat) :
    encodeBase64 [a] = [b64Char (a / 4), b64Char (a % 4 * 16), '=', '='] := rfl

theorem encodeBase64_two (a b : Nat) :
    encodeBase64 [a, b] =
      [b64Char (a / 4), b64Char (a % 4 * 16 + b / 16), b64Char (b % 16 * 4), '='] := rfl

theorem encodeBase64_chunk (a b c : Nat) (rest : List Nat) :
    encodeBase64 (a :: b :: c :: rest) =
      b64Char (a / 4) :: b64Char (a % 4 * 16 + b / 16) ::
        b64Char (b % 16 * 4 + c / 64) :: b64Char (c % 64) :: encodeBase64 rest := rfl

theorem decodeBase64_two (w x : Char) :
    decodeBase64 [w, x] = [b64Index w * 4 + b64Index x / 16] := rfl

theorem decodeBase64_three (w x y : Char) :
    decodeBase64 [w, x, y] =
      [b64Index w * 4 + b64Index x / 16, b64Index x % 16 * 16 + b64Index y / 4] := rfl

theorem decodeBase64_group (w x y z : Char) (rest : List Char) :
    decodeBase64 (w :: x :: y :: z :: rest) =
      (b64Index w * 4 + b64Index x / 16) ::
        (b64Index x % 16 * 16 + b64Index y / 4) ::
        (b64Index y % 4 * 64 + b64Index z) :: decodeBase64 rest := rfl

/-- C10: the base64url transforms are mutually inverse: decoding with
decodeBase64Url the encoding used by sendMessage (standard base64 with `+`
and `/` made URL-safe and the trailing padding stripped) recovers every
byte sequence. -/
theorem base64url_roundtrip :
    ∀ bytes : List Nat, (∀ b ∈ bytes, b < 256) →
      decodeBase64Url (sendMessageRawEncoding bytes) = bytes
  | [], _ => rfl
  | [a], h => by
    have ha : a < 256 := h a (by simp)
    have h1 : a / 4 < 64 := by omega
    have h2 : a % 4 * 16 < 64 := by omega
    show decodeBase64 (List.map fromUrlSafeChar
      (stripTrailingPad (List.map toUrlSafeChar (encodeBase64 [a])))) = [a]
    rw [encodeBase64_one, List.map_cons, List.map_cons, List.map_cons, List.map_cons,
        List.map_nil, toUrl_pad_eq,
        stripTrailingPad_cons_ne _ _ (b64_char_ne_pad _ h1),
        stripTrailingPad_cons_ne _ _ (b64_char_ne_pad _ h2),
        strip_pad_two, List.map_cons, List.map_cons, List.map_nil, decodeBase64_two,
        b64_char_roundtrip _ h1, b64_char_roundtrip _ h2,
        show a / 4 * 4 + a % 4 * 16 / 16 = a by omega]
  | [a, b], h => by
    have ha : a < 256 := h a (by simp)
    have hb : b < 256 := h b (by simp)
    have h1 : a / 4 < 64 := by omega
    have h2 : a % 4 * 16 + b / 16 < 64 := by omega
    have h3 : b % 16 * 4 < 64 := by omega
    show decodeBase64 (List.map fromUrlSafeChar
      (stripTrailingPad (List.map toUrlSafeChar (encodeBase64 [a, b])))) = [a, b]
    rw [encodeBase64_two, List.map_cons, List.map_cons, List.map_cons, List.map_cons,
        List.map_nil, toUrl_pad_eq,
        stripTrailingPad_cons_ne _ _ (b64_char_ne_pad _ h1),
        stripTrailingPad_cons_ne _ _ (b64_char_ne_pad _ h2),
        stripTrailingPad_cons_ne _ _ (b64_char_ne_pad _ h3),
        strip_pad_one, List.map_cons, List.map_cons, List.map_cons, List.map_nil,
        decodeBase64_three,
        b64_char_roundtrip _ h1, b64_char_roundtrip _ h2, b64_char_roundtrip _ h3,
        show a / 4 * 4 + (a % 4 * 16 + b / 16) / 16 = a by omega,
        show (a % 4 * 16 + b / 16) % 16 * 16 + b % 16 * 4 / 4 = b by omega]
  | a :: b :: c :: rest, h => by
    have ha : a < 256 := h a (by simp)
    have hb : b < 256 := h b (by simp)
    have hc : c < 256 := h c (by simp)
    have hrest : ∀ x ∈ rest, x < 256 := fun x hx => h x (by simp [hx])
    have h1 : a / 4 < 64 := by omega
    have h2 : a % 4 * 16 + b / 16 < 64 := by omega
    have h3 : b % 16 * 4 + c / 64 < 64 := by omega
    have h4 : c % 64 < 64 := by omega
    have ihh := base64url_roundtrip rest hrest
    simp only [decodeBase64Url, sendMessageRawEncoding] at ihh
    show decodeBase64 (List.map fromUrlSafeChar
      (stripTrailingPad (List.map toUrlSafeChar (encodeBase64 (a :: b :: c :: rest)))))
      = a :: b :: c :: rest
    rw [encodeBase64_chunk, List.map_cons, List.map_cons, List.map_cons, List.map_cons,
        stripTrailingPad_cons_ne _ _ (b64_char_ne_pad _ h1),
        stripTrailingPad_cons_ne _ _ (b64_char_ne_pad _ h2),
        stripTrailingPad_cons_ne _ _ (b64_char_ne_pad _ h3),
        stripTrailingPad_cons_ne _ _ (b64_char_ne_pad _ h4),
        List.map_cons, List.map_cons, List.map_cons, List.map_cons,
        decodeBase64_group, b64_char_roundtrip _ h1, b64_char_roundtrip _ h2,
        b64_char_roundtrip _ h3, b64_char_roundtrip _ h4, ihh,
        show a / 4 * 4 + (a % 4 * 16 + b / 16) / 16 = a by omega,
        show (a % 4 * 16 + b / 16) % 16 * 16 + (b % 16 * 4 + c / 64) / 4 = b by omega,
        show (b % 16 * 4 + c / 64) % 4 * 64 + c % 64 = c by omega]

/-- Witness for C10: the five bytes of "Hello" survive the encode-decode
round trip. -/
theorem base64url_roundtrip_witness :
    decodeBase64Url (sendMessageRawEncoding [72, 101, 108, 108, 111]) =
      [72, 101, 108, 108, 111] :=
  base64url_roundtrip [72, 101, 108, 108, 111] (by decide)
